import Mathlib

/-
Verification of the DBus display-management script (dbustest.py) against its
natural-language specification.

The script talks to the org.gnome.Mutter.DisplayConfig service.  Its dynamic
(Python / DBus) values are modelled by the inductive `Value`; the two service
replies (GetResources, GetCurrentState) are modelled by records whose shapes
are fixed by the DBus type signatures; the inner mode records of the
current-state listing are kept as raw value lists because the script indexes
into them positionally.  Calls made by the script to the service are collected
in `Call` traces; methods of the DisplayConfig class become functions that
return their result, the calls they perform, and the resulting object state.
-/

namespace DBusPy

/-- Wire-level dynamic value: the subset of Python and DBus values the script
handles (integers, strings, doubles modelled as rationals since the script
never computes with them, booleans, lists and string-keyed dictionaries). -/
inductive Value where
  | int : Int → Value
  | str : String → Value
  | float : ℚ → Value
  | bool : Bool → Value
  | list : List Value → Value
  | dict : List (String × Value) → Value

/-- Python str(...) rendering used by the print statements and by the
available_modes comprehension.  It is exact on the scalar values the script
actually formats (strings, integers, booleans); composite and floating values
get a stand-in rendering, which no theorem below depends on. -/
def pyStr : Value → String
  | Value.int n => toString n
  | Value.str s => s
  | Value.bool b => if b then "True" else "False"
  | Value.float q => toString q
  | Value.list _ => "<composite>"
  | Value.dict _ => "<composite>"

/-- Entity wrapping a wire-level mode record; mirrors class DisplayMode, whose
constructor stores the record unexamined. -/
structure DisplayMode where
  mode_info : List Value

/-- Decoding a wire record into the entity: the constructor call
DisplayMode(mode_info).  The source performs no validation here. -/
def parseDisplayMode (record : List Value) : DisplayMode :=
  DisplayMode.mk record

/-- mode_info[0]; a positional access that in Python raises IndexError when the
record is too short, modelled as none. -/
def DisplayMode.mode_id (m : DisplayMode) : Option Value :=
  m.mode_info.get? 0

/-- mode_info[1]: width in physical pixels. -/
def DisplayMode.width (m : DisplayMode) : Option Value :=
  m.mode_info.get? 1

/-- mode_info[2]: height in physical pixels. -/
def DisplayMode.height (m : DisplayMode) : Option Value :=
  m.mode_info.get? 2

/-- mode_info[3]: refresh rate. -/
def DisplayMode.frequency (m : DisplayMode) : Option Value :=
  m.mode_info.get? 3

/-- mode_info[4]: preferred scale. -/
def DisplayMode.scale (m : DisplayMode) : Option Value :=
  m.mode_info.get? 4

/-- mode_info[5]: scales supported by this mode. -/
def DisplayMode.supported_scale (m : DisplayMode) : Option Value :=
  m.mode_info.get? 5

/-- mode_info[6]: optional properties. -/
def DisplayMode.properties (m : DisplayMode) : Option Value :=
  m.mode_info.get? 6

/-- Python test ("is-current" in self.properties).  The wire type of the
properties field is a string-keyed dictionary; on any other value the Python
membership test raises, modelled as none. -/
def DisplayMode.is_current (m : DisplayMode) : Option Bool :=
  match m.properties with
  | some (Value.dict kvs) => some (kvs.any fun kv => kv.1 == "is-current")
  | _ => none

/-- Python str(DisplayMode): the "%sx%s@%s" format over width, height and
frequency; raises (none) when the record lacks one of those fields. -/
def DisplayMode.toStr (m : DisplayMode) : Option String := do
  let w ← m.width
  let h ← m.height
  let f ← m.frequency
  pure (pyStr w ++ "x" ++ pyStr h ++ "@" ++ pyStr f)

/-- One entry of the GetCurrentState monitor listing: the triple
(monitor_info, modes, properties) that print_monitor_config destructures.
The inner mode records stay raw value lists since the script indexes them. -/
structure MonitorRecord where
  monitor_info : List Value
  modes : List (List Value)
  props : List (String × Value)

/-- Reply of GetResources:
(serial, crtcs, outputs, modes, max_screen_width, max_screen_height),
accessed positionally as resources[0] .. resources[5] by the script. -/
structure Resources where
  serial : Value
  crtcs : List Value
  outputs : List Value
  modes : List Value
  max_screen_width : Value
  max_screen_height : Value

/-- Reply of GetCurrentState:
(serial, monitors, logical_monitors, properties). -/
structure CurrentState where
  serial : Value
  monitors : List MonitorRecord
  logical_monitors : List Value
  properties : List (String × Value)

/-- The external Mutter DisplayConfig service, abstracted as the replies it
returns to the two read calls the script performs. -/
structure Service where
  resourcesReply : Resources
  currentStateReply : CurrentState

/-- One (connector_name, mode_id, properties) entry of a submitted logical
monitor placement. -/
structure MonitorAssignment where
  connector : String
  mode_id : String
  props : List (String × Value)

/-- A logical monitor placement as submitted by ApplyMonitorsConfig:
(x, y, scale, transform, primary, [(connector_name, mode_id, properties)]). -/
structure Placement where
  x : Int
  y : Int
  scale : ℚ
  transform : Nat
  primary : Bool
  monitors : List MonitorAssignment

/-- A call the script makes on the external service interface. -/
inductive Call where
  | getResources
  | getCurrentState
  | applyMonitorsConfig (serial : Value) (method : Int)
      (monitors : List Placement) (properties : List (String × Value))

/-- The DisplayConfig object state: the two replies captured at construction
time and the serial copied out of the current-state reply. -/
structure DisplayConfig where
  resources : Resources
  current_state : CurrentState
  config_serial : Value

/-- Constant VERIFY_METHOD = 0. -/
def DisplayConfig.VERIFY_METHOD : Int := 0

/-- Constant TEMPORARY_METHOD = 1. -/
def DisplayConfig.TEMPORARY_METHOD : Int := 1

/-- Constant PERSISTENT_METHOD = 2. -/
def DisplayConfig.PERSISTENT_METHOD : Int := 2

/-- Mirror of DisplayConfig.__init__: calls GetResources then GetCurrentState
on the service, stores both replies and sets config_serial from the
current-state reply (current_state[0]).  Returns the constructed object and
the trace of service calls performed. -/
def DisplayConfig.init (svc : Service) : DisplayConfig × List Call :=
  (DisplayConfig.mk svc.resourcesReply svc.currentStateReply
     svc.currentStateReply.serial,
   [Call.getResources, Call.getCurrentState])

/-- Property serial: returns resources[0], the serial of the legacy listing
(note: not config_serial, which comes from the current-state reply). -/
def DisplayConfig.serial (cfg : DisplayConfig) : Value :=
  cfg.resources.serial

/-- Property crtcs: resources[1]. -/
def DisplayConfig.crtcs (cfg : DisplayConfig) : List Value :=
  cfg.resources.crtcs

/-- Property outputs: resources[2]. -/
def DisplayConfig.outputs (cfg : DisplayConfig) : List Value :=
  cfg.resources.outputs

/-- Property modes: resources[3]. -/
def DisplayConfig.modes (cfg : DisplayConfig) : List Value :=
  cfg.resources.modes

/-- Property max_screen_width: resources[4]. -/
def DisplayConfig.max_screen_width (cfg : DisplayConfig) : Value :=
  cfg.resources.max_screen_width

/-- Property max_screen_height: resources[5]. -/
def DisplayConfig.max_screen_height (cfg : DisplayConfig) : Value :=
  cfg.resources.max_screen_height

/-- The comprehension [str(mode[0]) for mode in modes]: evaluated left to
right, raising (none) at the first record without an element 0. -/
def strIdList : List (List Value) → Option (List String)
  | [] => some []
  | mode :: rest => do
      let v ← mode.get? 0
      let tail ← strIdList rest
      pure (pyStr v :: tail)

/-- Method available_modes: reads monitor[1] and derives the list of mode id
strings.  The method never touches self, so the object state is returned
unchanged. -/
def DisplayConfig.available_modes (cfg : DisplayConfig) (monitor : MonitorRecord) :
    Option (List String) × DisplayConfig :=
  (strIdList monitor.modes, cfg)

/-- One printed item.  Print output is modelled structurally: a formatted text
line, a printed list of strings, a printed raw wire value, or a printed
property dictionary. -/
inductive OutItem where
  | line (s : String)
  | strList (l : List String)
  | value (v : Value)
  | propsOut (ps : List (String × Value))

/-- Python str on each element of monitor_info as required by
" ".join(monitor_info): every element must already be a string, otherwise
join raises (none). -/
def joinInfo : List Value → Option (List String)
  | [] => some []
  | Value.str s :: rest => do
      let tail ← joinInfo rest
      pure (s :: tail)
  | _ => none

/-- The per-mode loop of print_monitor_config: for each mode record build a
DisplayMode and, when it is current, print "Current: " together with its
string rendering.  Any raising access aborts the whole print (none). -/
def currentModeItems : List (List Value) → Option (List OutItem)
  | [] => some []
  | mode :: rest => do
      let d := parseDisplayMode mode
      let c ← d.is_current
      let tail ← currentModeItems rest
      if c then
        let s ← d.toStr
        pure (OutItem.line ("Current:  " ++ s) :: tail)
      else
        pure tail

/-- Body of print_monitor_config on one monitor entry: header line, the joined
monitor_info line, the current-mode lines, then the printed properties. -/
def monitorConfigItems (monitor : MonitorRecord) : Option (List OutItem) := do
  let info ← joinInfo monitor.monitor_info
  let currents ← currentModeItems monitor.modes
  pure (OutItem.line "Print Monitor Config"
        :: OutItem.line (String.intercalate " " info)
        :: currents ++ [OutItem.propsOut monitor.props])

/-- Method print_monitor_config; never touches self, state unchanged. -/
def DisplayConfig.print_monitor_config (cfg : DisplayConfig)
    (monitor : MonitorRecord) : Option (List OutItem) × DisplayConfig :=
  (monitorConfigItems monitor, cfg)

/-- The per-monitor loop of print_current_state: the "Available Monitor Modes"
header, the printed available_modes list, then the monitor config block. -/
def perMonitorItems : List MonitorRecord → Option (List OutItem)
  | [] => some []
  | monitor :: rest => do
      let am ← strIdList monitor.modes
      let mc ← monitorConfigItems monitor
      let tail ← perMonitorItems rest
      pure (OutItem.line "Available Monitor Modes" :: OutItem.strList am
            :: mc ++ tail)

/-- Everything print_current_state prints, computed from the stored
current-state reply. -/
def currentStateItems (st : CurrentState) : Option (List OutItem) := do
  let per ← perMonitorItems st.monitors
  pure ([OutItem.line ("Serial: " ++ pyStr st.serial),
         OutItem.line ("Monitors num: " ++ toString st.monitors.length)]
        ++ per
        ++ [OutItem.line "Logical monitors"]
        ++ st.logical_monitors.map OutItem.value
        ++ [OutItem.line "PROPS"]
        ++ st.properties.map (fun kv => OutItem.line (kv.1 ++ ": " ++ pyStr kv.2)))

/-- Method print_current_state: destructures self.current_state and prints it;
the object state is returned unchanged. -/
def DisplayConfig.print_current_state (cfg : DisplayConfig) :
    Option (List OutItem) × DisplayConfig :=
  (currentStateItems cfg.current_state, cfg)

/-- The hard-coded monitors literal built inside apply_monitors_config:
one placement at (0, 0), scale dbus.Double(1.0), transform dbus.UInt32(0),
primary True, assigning connector DP-1 the mode id string
1920x1200@59.950172424316406 with empty per-monitor properties.  (A second,
commented-out placement in the source is not built.) -/
def applyPlacements : List Placement :=
  [Placement.mk 0 0 1 0 true
    [MonitorAssignment.mk "DP-1" "1920x1200@59.950172424316406" []]]

/-- Method apply_monitors_config: performs the single service call
ApplyMonitorsConfig(self.config_serial, 1, monitors, \x7b\x7d) with the
hard-coded monitors literal; the object state is returned unchanged. -/
def DisplayConfig.apply_monitors_config (cfg : DisplayConfig) :
    List Call × DisplayConfig :=
  ([Call.applyMonitorsConfig cfg.config_serial 1 applyPlacements []], cfg)

/-- Method single_mode: builds the local list
monitors = [[x_position, y_position, scale, transform, is_primary,
monitor_list]] and returns None.  The embedding exposes the constructed list
(first component), the calls performed (none), and the object state. -/
def DisplayConfig.single_mode (cfg : DisplayConfig)
    (x_position y_position scale transform is_primary monitor_list : Value) :
    List Value × List Call × DisplayConfig :=
  ([Value.list [x_position, y_position, scale, transform, is_primary,
      monitor_list]], [], cfg)

/-- Method extand_mode: body identical to single_mode (builds the one-element
local list from its arguments and returns None). -/
def DisplayConfig.extand_mode (cfg : DisplayConfig)
    (x_position y_position scale transform is_primary monitor_list : Value) :
    List Value × List Call × DisplayConfig :=
  ([Value.list [x_position, y_position, scale, transform, is_primary,
      monitor_list]], [], cfg)

/-- Method clone_mode: body identical to single_mode (builds the one-element
local list from its arguments and returns None). -/
def DisplayConfig.clone_mode (cfg : DisplayConfig)
    (x_position y_position scale transform is_primary monitor_list : Value) :
    List Value × List Call × DisplayConfig :=
  ([Value.list [x_position, y_position, scale, transform, is_primary,
      monitor_list]], [], cfg)

/-- Modelled from the spec: the (width, height) resolutions offered by the
mode records of a monitor entry, read from positions 1 and 2 of each record.
Used only to state the Clone precondition "no resolution is supported by
every selected output" of the specification. -/
def specResolutions (monitor : MonitorRecord) : List (Int × Int) :=
  monitor.modes.filterMap fun mode =>
    match mode.get? 1, mode.get? 2 with
    | some (Value.int w), some (Value.int h) => some (w, h)
    | _, _ => none

/-- Sample current-state mode record: 1920x1200, preferred scale 1.0, marked
current.  Shape follows the DBus signature (id, width, height, refresh,
preferred_scale, supported_scales, properties). -/
def sampleModeA : List Value :=
  [Value.str "1920x1200@59.950172424316406", Value.int 1920, Value.int 1200,
   Value.float 60, Value.float 1, Value.list [Value.float 1, Value.float 2],
   Value.dict [("is-current", Value.bool true)]]

/-- Sample current-state mode record: 1920x1200, preferred scale 2.0. -/
def sampleModeB : List Value :=
  [Value.str "1920x1200@59.950172424316406", Value.int 1920, Value.int 1200,
   Value.float 60, Value.float 2, Value.list [Value.float 2], Value.dict []]

/-- Sample current-state mode record: 1280x1024, preferred scale 1.0. -/
def sampleModeC : List Value :=
  [Value.str "1280x1024@60", Value.int 1280, Value.int 1024, Value.float 60,
   Value.float 1, Value.list [Value.float 1], Value.dict []]

/-- Sample monitor on connector DP-1 offering only the 1920x1200 mode with
preferred scale 1.0. -/
def monitorDP1 : MonitorRecord :=
  MonitorRecord.mk
    [Value.str "DP-1", Value.str "DEL", Value.str "U2415", Value.str "SER1"]
    [sampleModeA] []

/-- Sample monitor on connector HDMI-1 offering only the 1920x1200 mode with
preferred scale 2.0. -/
def monitorHDMI1 : MonitorRecord :=
  MonitorRecord.mk
    [Value.str "HDMI-1", Value.str "DEL", Value.str "U2415", Value.str "SER2"]
    [sampleModeB] []

/-- Sample monitor on connector VGA-1 offering only the 1280x1024 mode, so it
shares no resolution with monitorDP1. -/
def monitorVGA1 : MonitorRecord :=
  MonitorRecord.mk
    [Value.str "VGA-1", Value.str "ACM", Value.str "OLD", Value.str "SER3"]
    [sampleModeC] []

/-- Sample service whose current-state listing holds the three monitors above;
both replies carry serial 7. -/
def sampleService : Service :=
  Service.mk
    (Resources.mk (Value.int 7) [] [] [] (Value.int 7680) (Value.int 7680))
    (CurrentState.mk (Value.int 7) [monitorDP1, monitorHDMI1, monitorVGA1] [] [])

/-- A DisplayConfig object freshly fetched from the sample service. -/
def sampleConfig : DisplayConfig :=
  (DisplayConfig.init sampleService).1

/-- Selection naming exactly one output (DP-1 with its 1920x1200 mode), in
the nested-list shape the builder methods receive. -/
def singleSelection : Value :=
  Value.list [Value.list [Value.str "DP-1",
    Value.str "1920x1200@59.950172424316406", Value.dict []]]

/-- Selection naming DP-1 then HDMI-1 (the A-then-B extend example of the
specification). -/
def extendSelection : Value :=
  Value.list [Value.list [Value.str "DP-1",
      Value.str "1920x1200@59.950172424316406", Value.dict []],
    Value.list [Value.str "HDMI-1",
      Value.str "1920x1200@59.950172424316406", Value.dict []]]

/-- Selection naming DP-1 and VGA-1, two outputs with no common resolution. -/
def cloneSelection : Value :=
  Value.list [Value.list [Value.str "DP-1",
      Value.str "1920x1200@59.950172424316406", Value.dict []],
    Value.list [Value.str "VGA-1", Value.str "1280x1024@60", Value.dict []]]

/-- Service whose two replies carry different serials (legacy listing 1,
current state 2), exhibiting the race the specification describes. -/
def divergentService : Service :=
  Service.mk
    (Resources.mk (Value.int 1) [] [] [] (Value.int 7680) (Value.int 7680))
    (CurrentState.mk (Value.int 2) [] [] [])

/-- A wire-level mode record of arity 3 instead of the documented 7. -/
def shortRecord : List Value :=
  [Value.str "id0", Value.int 1920, Value.int 1200]

/-- Executable form of the spec condition "no resolution is supported by every
selected output", for two monitor entries. -/
def specNoCommonResolutionB (a b : MonitorRecord) : Bool :=
  (specResolutions a).all fun r => !((specResolutions b).contains r)

/-- Helper: on a list of nonempty mode records, the comprehension
[str(mode[0]) for mode in modes] succeeds and is the pointwise map of str over
the head of each record. -/
theorem strIdList_eq_map (l : List (List Value))
    (h : ∀ mode ∈ l, mode ≠ []) :
    strIdList l = some (l.map fun mode => pyStr (mode.headD (Value.int 0))) := by
  induction l with
  | nil => rfl
  | cons a rest ih =>
      obtain ⟨v, vs, rfl⟩ := List.exists_cons_of_ne_nil (h a (by simp))
      have hr := ih fun m hm => h m (List.mem_cons_of_mem _ hm)
      simp [strIdList, hr]

/-- Claim C1 (amended): for every invocation, single_mode constructs exactly
one placement record whose x, y, scale, transform, primary flag and monitor
list are exactly the caller-supplied arguments (the snapshot is not consulted
and no field is forced to the values the original claim states); it performs
no service call and leaves the object state unchanged. -/
theorem claim1_single_passthrough (cfg : DisplayConfig)
    (x y sc tr pr ml : Value) :
    (DisplayConfig.single_mode cfg x y sc tr pr ml).1
        = [Value.list [x, y, sc, tr, pr, ml]]
    ∧ (DisplayConfig.single_mode cfg x y sc tr pr ml).2.1 = []
    ∧ (DisplayConfig.single_mode cfg x y sc tr pr ml).2.2 = cfg :=
  ⟨rfl, rfl, rfl⟩

/-- Claim C1 (counterexample): over a snapshot whose single selected output
DP-1 has preferred scale 1.0, calling single_mode with x 5, y 7, scale 3,
transform 2 and primary False yields a placement carrying exactly those
values, so the placement the claim mandates (0, 0, preferred scale 1.0,
transform none, primary True) is not produced. -/
theorem claim1_counterexample :
    (DisplayConfig.single_mode sampleConfig (Value.int 5) (Value.int 7)
        (Value.float 3) (Value.int 2) (Value.bool false) singleSelection).1
      = [Value.list [Value.int 5, Value.int 7, Value.float 3, Value.int 2,
          Value.bool false, singleSelection]]
    ∧ ((sampleConfig.current_state.monitors.get? 0).bind fun m =>
        (m.modes.get? 0).bind fun mo => mo.get? 4) = some (Value.float 1)
    ∧ Value.int 5 ≠ Value.int 0
    ∧ Value.int 7 ≠ Value.int 0
    ∧ Value.float 3 ≠ Value.float 1
    ∧ Value.bool false ≠ Value.bool true := by
  refine ⟨rfl, rfl, ?_, ?_, ?_, ?_⟩ <;> simp

/-- Claim C2 (amended): for every invocation, extand_mode constructs exactly
one placement record, at the caller-supplied position, regardless of how many
outputs the monitor list selects; it computes no running-sum x offsets,
performs no service call and leaves the object state unchanged. -/
theorem claim2_extend_single_record (cfg : DisplayConfig)
    (x y sc tr pr ml : Value) :
    (DisplayConfig.extand_mode cfg x y sc tr pr ml).1
        = [Value.list [x, y, sc, tr, pr, ml]]
    ∧ (DisplayConfig.extand_mode cfg x y sc tr pr ml).1.length = 1
    ∧ (DisplayConfig.extand_mode cfg x y sc tr pr ml).2.1 = []
    ∧ (DisplayConfig.extand_mode cfg x y sc tr pr ml).2.2 = cfg :=
  ⟨rfl, rfl, rfl, rfl⟩

/-- Claim C2 (counterexample): on the A-then-B selection of the specification
(DP-1 at 1920x1200 scale 1.0, then HDMI-1 at 1920x1200 scale 2.0), extand_mode
builds a single placement record holding the whole selection, not the two
placements at (0,0) and (1920,0) the claim mandates. -/
theorem claim2_counterexample :
    (DisplayConfig.extand_mode sampleConfig (Value.int 0) (Value.int 0)
        (Value.float 1) (Value.int 0) (Value.bool true) extendSelection).1.length
      = 1
    ∧ (DisplayConfig.extand_mode sampleConfig (Value.int 0) (Value.int 0)
        (Value.float 1) (Value.int 0) (Value.bool true) extendSelection).1
      = [Value.list [Value.int 0, Value.int 0, Value.float 1, Value.int 0,
          Value.bool true, extendSelection]]
    ∧ (1 : Nat) ≠ 2 :=
  ⟨rfl, rfl, by decide⟩

/-- Claim C3 (amended): clone_mode never inspects mode compatibility and has
no failure outcome: for every invocation, including selections sharing no
resolution, it constructs exactly one placement record from its arguments
(so all constructed placements trivially share position, scale and
transform), performs no service call and leaves the object state unchanged. -/
theorem claim3_clone_no_failure (cfg : DisplayConfig)
    (x y sc tr pr ml : Value) :
    (DisplayConfig.clone_mode cfg x y sc tr pr ml).1
        = [Value.list [x, y, sc, tr, pr, ml]]
    ∧ (DisplayConfig.clone_mode cfg x y sc tr pr ml).1.length = 1
    ∧ (DisplayConfig.clone_mode cfg x y sc tr pr ml).2.1 = []
    ∧ (DisplayConfig.clone_mode cfg x y sc tr pr ml).2.2 = cfg :=
  ⟨rfl, rfl, rfl, rfl⟩

/-- Claim C3 (counterexample): DP-1 (1920x1200 only) and VGA-1 (1280x1024
only) share no resolution, yet clone_mode does not fail with NoCommonMode: it
constructs a placement record for the selection. -/
theorem claim3_counterexample :
    specNoCommonResolutionB monitorDP1 monitorVGA1 = true
    ∧ (DisplayConfig.clone_mode sampleConfig (Value.int 0) (Value.int 0)
        (Value.float 1) (Value.int 0) (Value.bool true) cloneSelection).1
      = [Value.list [Value.int 0, Value.int 0, Value.float 1, Value.int 0,
          Value.bool true, cloneSelection]] :=
  ⟨by decide, rfl⟩

/-- Claim C4 (amended): every fetch performs exactly two read calls,
GetResources then GetCurrentState, and captures config_serial from the
current-state reply, while the serial property separately exposes the legacy
listing serial; the two serials are never compared, so a divergence triggers
neither a retry nor an InconsistentSnapshot failure. -/
theorem claim4_fetch_two_reads (svc : Service) :
    (DisplayConfig.init svc).2 = [Call.getResources, Call.getCurrentState]
    ∧ (DisplayConfig.init svc).2.length = 2
    ∧ (DisplayConfig.init svc).1.config_serial = svc.currentStateReply.serial
    ∧ DisplayConfig.serial (DisplayConfig.init svc).1
        = svc.resourcesReply.serial :=
  ⟨rfl, rfl, rfl, rfl⟩

/-- Claim C4 (counterexample): on a service whose legacy listing reports
serial 1 while the current state reports serial 2, the fetch still performs
exactly two read calls (no retry) and completes, returning a DisplayConfig
whose config_serial is 2; no InconsistentSnapshot failure occurs. -/
theorem claim4_counterexample :
    divergentService.resourcesReply.serial
        ≠ divergentService.currentStateReply.serial
    ∧ (DisplayConfig.init divergentService).2.length = 2
    ∧ (DisplayConfig.init divergentService).1.config_serial = Value.int 2 := by
  refine ⟨?_, rfl, rfl⟩
  simp [divergentService]

/-- Claim C5: every apply call submits exactly the serial captured at fetch
time from the current-state reply, the method encoding 1 = TEMPORARY_METHOD
(with VERIFY_METHOD = 0 and PERSISTENT_METHOD = 2), and a placement list
whose entries have the shape (x, y, scale, transform, primary,
[(connector_name, mode_id, properties)]) enforced by the Placement type. -/
theorem claim5_apply_serial_method_shape (svc : Service) :
    (DisplayConfig.apply_monitors_config (DisplayConfig.init svc).1).1
      = [Call.applyMonitorsConfig svc.currentStateReply.serial
          DisplayConfig.TEMPORARY_METHOD applyPlacements []]
    ∧ (DisplayConfig.init svc).1.config_serial = svc.currentStateReply.serial
    ∧ DisplayConfig.VERIFY_METHOD = 0
    ∧ DisplayConfig.TEMPORARY_METHOD = 1
    ∧ DisplayConfig.PERSISTENT_METHOD = 2 :=
  ⟨rfl, rfl, rfl, rfl, rfl⟩

/-- Claim C6 (amended): decoding a wire record into a DisplayMode performs no
arity validation and never fails: the entity stores the raw record, an
in-range field is readable, and an out-of-range field is observed as absent
only when accessed; there is no MalformedRecord failure and no id-resolution
check at parse time. -/
theorem claim6_decode_is_total (record : List Value)
    (h : record.length < 7) :
    parseDisplayMode record = DisplayMode.mk record
    ∧ (parseDisplayMode record).width = record.get? 1
    ∧ (parseDisplayMode record).properties = none := by
  refine ⟨rfl, rfl, ?_⟩
  show record.get? 6 = none
  rw [List.get?_eq_none]
  omega

/-- Witness for claim C6 (amended) at the concrete arity-3 record. -/
theorem claim6_decode_is_total_witness :
    shortRecord.length < 7
    ∧ (parseDisplayMode shortRecord = DisplayMode.mk shortRecord
       ∧ (parseDisplayMode shortRecord).width = shortRecord.get? 1
       ∧ (parseDisplayMode shortRecord).properties = none) :=
  ⟨by decide, claim6_decode_is_total shortRecord (by decide)⟩

/-- Claim C6 (counterexample): the arity-3 record (id0, 1920, 1200) decodes
without any parse-time failure into an entity that downstream code can
observe: mode_id and width read back values while frequency is absent, i.e.
a wrong-arity record yields an observable, only partly readable entity
instead of a MalformedRecord failure. -/
theorem claim6_counterexample :
    parseDisplayMode shortRecord = DisplayMode.mk shortRecord
    ∧ shortRecord.length = 3
    ∧ (parseDisplayMode shortRecord).mode_id = some (Value.str "id0")
    ∧ (parseDisplayMode shortRecord).width = some (Value.int 1920)
    ∧ (parseDisplayMode shortRecord).frequency = none :=
  ⟨rfl, rfl, rfl, rfl, rfl⟩

/-- Claim C7: every operation invoked after a snapshot is fetched (mode
listing, state printing, the three builder methods and apply) leaves the
stored resources listing, current-state listing and captured serial
unchanged, and only a new fetch installs new values for them. -/
theorem claim7_operations_preserve_snapshot (cfg : DisplayConfig)
    (monitor : MonitorRecord) (x y sc tr pr ml : Value) (svc : Service) :
    (DisplayConfig.available_modes cfg monitor).2 = cfg
    ∧ (DisplayConfig.print_monitor_config cfg monitor).2 = cfg
    ∧ (DisplayConfig.print_current_state cfg).2 = cfg
    ∧ (DisplayConfig.apply_monitors_config cfg).2 = cfg
    ∧ (DisplayConfig.single_mode cfg x y sc tr pr ml).2.2 = cfg
    ∧ (DisplayConfig.extand_mode cfg x y sc tr pr ml).2.2 = cfg
    ∧ (DisplayConfig.clone_mode cfg x y sc tr pr ml).2.2 = cfg
    ∧ (DisplayConfig.init svc).1.resources = svc.resourcesReply
    ∧ (DisplayConfig.init svc).1.current_state = svc.currentStateReply
    ∧ (DisplayConfig.init svc).1.config_serial = svc.currentStateReply.serial :=
  ⟨rfl, rfl, rfl, rfl, rfl, rfl, rfl, rfl, rfl, rfl⟩

/-- Claim C8: on a monitor entry whose mode records are nonempty,
available_modes yields exactly the pointwise str of each record head: one id
per mode, in the original order, with length preserved and membership of the
derived ids matching the original records (none dropped or duplicated). -/
theorem claim8_available_modes_roundtrip (cfg : DisplayConfig)
    (monitor : MonitorRecord) (h : ∀ mode ∈ monitor.modes, mode ≠ []) :
    (DisplayConfig.available_modes cfg monitor).1
      = some (monitor.modes.map fun mode => pyStr (mode.headD (Value.int 0)))
    ∧ (monitor.modes.map fun mode => pyStr (mode.headD (Value.int 0))).length
        = monitor.modes.length
    ∧ ∀ s : String,
        s ∈ monitor.modes.map (fun mode => pyStr (mode.headD (Value.int 0)))
        ↔ ∃ mode ∈ monitor.modes, pyStr (mode.headD (Value.int 0)) = s :=
  ⟨strIdList_eq_map monitor.modes h, by simp, fun s => List.mem_map⟩

/-- Witness for claim C8 at the concrete DP-1 monitor entry. -/
theorem claim8_available_modes_roundtrip_witness :
    (∀ mode ∈ monitorDP1.modes, mode ≠ [])
    ∧ ((DisplayConfig.available_modes sampleConfig monitorDP1).1
        = some (monitorDP1.modes.map fun mode => pyStr (mode.headD (Value.int 0)))
      ∧ (monitorDP1.modes.map fun mode => pyStr (mode.headD (Value.int 0))).length
          = monitorDP1.modes.length
      ∧ ∀ s : String,
          s ∈ monitorDP1.modes.map (fun mode => pyStr (mode.headD (Value.int 0)))
          ↔ ∃ mode ∈ monitorDP1.modes, pyStr (mode.headD (Value.int 0)) = s) :=
  ⟨by simp [monitorDP1, sampleModeA],
   claim8_available_modes_roundtrip sampleConfig monitorDP1
     (by simp [monitorDP1, sampleModeA])⟩

/-- Claim C9: the three builder methods construct a (one-element) placement
list but never submit it: each performs no call on the external service
interface and leaves the object state unchanged. -/
theorem claim9_builders_no_calls (cfg : DisplayConfig)
    (x y sc tr pr ml : Value) :
    ((DisplayConfig.single_mode cfg x y sc tr pr ml).1.length = 1
      ∧ (DisplayConfig.single_mode cfg x y sc tr pr ml).2.1 = []
      ∧ (DisplayConfig.single_mode cfg x y sc tr pr ml).2.2 = cfg)
    ∧ ((DisplayConfig.extand_mode cfg x y sc tr pr ml).1.length = 1
      ∧ (DisplayConfig.extand_mode cfg x y sc tr pr ml).2.1 = []
      ∧ (DisplayConfig.extand_mode cfg x y sc tr pr ml).2.2 = cfg)
    ∧ ((DisplayConfig.clone_mode cfg x y sc tr pr ml).1.length = 1
      ∧ (DisplayConfig.clone_mode cfg x y sc tr pr ml).2.1 = []
      ∧ (DisplayConfig.clone_mode cfg x y sc tr pr ml).2.2 = cfg) :=
  ⟨⟨rfl, rfl, rfl⟩, ⟨rfl, rfl, rfl⟩, ⟨rfl, rfl, rfl⟩⟩

/-- Claim C10: apply_monitors_config depends on the fetched state only
through the captured serial: for every object state it submits the single
fixed call with method 1 (Temporary), empty properties, and one placement at
(0, 0), scale 1.0, transform 0, primary true, assigning connector DP-1 the
mode id 1920x1200@59.950172424316406. -/
theorem claim10_apply_fixed_configuration (cfg : DisplayConfig) :
    (DisplayConfig.apply_monitors_config cfg).1
      = [Call.applyMonitorsConfig cfg.config_serial 1
          [Placement.mk 0 0 1 0 true
            [MonitorAssignment.mk "DP-1" "1920x1200@59.950172424316406" []]]
          []] :=
  rfl

end DBusPy
